import Mathlib

/-!
Shallow embedding of the `basic-app` repository core in Lean 4, and proofs
of the specified properties against it.

Embedded components and their Go sources:
* Admission controller and stats reporter — `src/BasicWSServer/main.go`
  (`checkMemoryUsage`, `handleConnections`, `monitorStats`).
* Instance registry cache, least-loaded selector and redirecting proxy
  handler — the proxy source (`updateServiceDiscoveryCache`,
  `getLeastLoadedInstance`, `proxyHandler`).
* Reconnecting websocket client — the client source (`handleRedirect`,
  `connect`, `closeOnce`, the retry logic of `Run`).

Machine integers are modelled as `Nat`/`Int` with explicit two's-complement
wrapping where Go would wrap (`uint64` multiplication, `atomic.AddInt32`,
`atomic.AddInt64`).  Fallible operations return `Except`/`Option`, and a Go
nil-pointer dereference (a panic) is modelled as `Option.none` propagating
out of the computation.
-/

namespace BasicApp

/-- `2^31`, bound of Go `int32`. -/
def INT32_BOUND : Int := 2 ^ 31

/-- `2^63`, bound of Go `int64`. -/
def INT64_BOUND : Int := 2 ^ 63

/-- `2^64`, modulus of Go `uint64` arithmetic. -/
def UINT64_MOD : Nat := 2 ^ 64

/-- Two's-complement wrap into the `int32` range, the result of Go
`atomic.AddInt32`-style arithmetic. -/
def wrap32 (x : Int) : Int := (x + INT32_BOUND) % (2 * INT32_BOUND) - INT32_BOUND

/-- Two's-complement wrap into the `int64` range, the result of Go
`atomic.AddInt64`-style arithmetic. -/
def wrap64 (x : Int) : Int := (x + INT64_BOUND) % (2 * INT64_BOUND) - INT64_BOUND

theorem wrap32_eq_of_range (x : Int) (h1 : -INT32_BOUND ≤ x) (h2 : x < INT32_BOUND) :
    wrap32 x = x := by
  unfold wrap32
  have hlo : (0 : Int) ≤ x + INT32_BOUND := by linarith
  have hhi : x + INT32_BOUND < 2 * INT32_BOUND := by linarith
  rw [Int.emod_eq_of_lt hlo hhi]
  ring

theorem wrap64_eq_of_range (x : Int) (h1 : -INT64_BOUND ≤ x) (h2 : x < INT64_BOUND) :
    wrap64 x = x := by
  unfold wrap64
  have hlo : (0 : Int) ≤ x + INT64_BOUND := by linarith
  have hhi : x + INT64_BOUND < 2 * INT64_BOUND := by linarith
  rw [Int.emod_eq_of_lt hlo hhi]
  ring

/-! ## Server: admission controller and stats reporter
(`src/BasicWSServer/main.go`) -/

/-- `loadSheddingThreshold = 50` from `src/BasicWSServer/main.go`. -/
def loadSheddingThreshold : Nat := 50

/-- The sampled memory utilization `(memStats.Alloc * 100) / memStats.Sys`,
computed in Go `uint64` arithmetic (the product wraps modulo `2^64`).
`alloc` and `sys` are the sampled `uint64` values. -/
def memoryUtilizationPercent (alloc sys : Nat) : Nat :=
  (alloc * 100 % UINT64_MOD) / sys

/-- `checkMemoryUsage` from `src/BasicWSServer/main.go`: admit iff the sampled
utilization is at most the threshold. -/
def checkMemoryUsage (alloc sys : Nat) : Bool :=
  memoryUtilizationPercent alloc sys ≤ loadSheddingThreshold

/-- The server's process-wide mutable counters (`activeConnection`,
`droppedRequests`, `cumulativeDroppedRequests`), all atomics in Go. -/
structure ServerState where
  activeConnection : Int
  droppedRequests : Int
  cumulativeDroppedRequests : Int
  deriving Repr, DecidableEq

/-- The observable outcome of one `/ws` request in `handleConnections`. -/
inductive WsHandlerOutcome where
  /-- `http.Error(w, "Service Unavailable", 503)`; no upgrade attempted. -/
  | serviceUnavailable
  /-- `upgrader.Upgrade` failed and the handler calls `log.Fatal(err)`:
  the process exits. -/
  | upgradeFailedFatal
  /-- The upgrade succeeded and the handler enters the echo loop. -/
  | echoLoop
  deriving Repr, DecidableEq

/-- Whether an outcome terminates the whole process. -/
def WsHandlerOutcome.processFatal : WsHandlerOutcome → Bool
  | .upgradeFailedFatal => true
  | _ => false

/-- `handleConnections` from `src/BasicWSServer/main.go`, up to entering the
echo loop.  `alloc`/`sys` are the memory sample taken inside
`checkMemoryUsage`; `upgradeOk` abstracts whether `upgrader.Upgrade`
succeeds for this request.  On rejection both dropped counters are
incremented by one atomic add each; on admission the live-connection
counter is incremented (its matching deferred decrement happens when the
echo loop exits). -/
def handleConnections (alloc sys : Nat) (upgradeOk : Bool) (s : ServerState) :
    WsHandlerOutcome × ServerState :=
  if ¬ checkMemoryUsage alloc sys then
    (.serviceUnavailable,
      { s with droppedRequests := wrap32 (s.droppedRequests + 1),
               cumulativeDroppedRequests := wrap64 (s.cumulativeDroppedRequests + 1) })
  else if ¬ upgradeOk then
    (.upgradeFailedFatal, s)
  else
    (.echoLoop, { s with activeConnection := wrap32 (s.activeConnection + 1) })

/-- One tick of `monitorStats` from `src/BasicWSServer/main.go`: the rolling
`droppedRequests` counter is stored to 0 unconditionally, and the cumulative
counter is reset to 0 only when it exceeds `2^63 - 1 - 999999`. -/
def monitorStatsTick (s : ServerState) : ServerState :=
  let s1 := { s with droppedRequests := 0 }
  if s1.cumulativeDroppedRequests > INT64_BOUND - 1 - 999999 then
    { s1 with cumulativeDroppedRequests := 0 }
  else s1

theorem monitorStatsTick_dropped (s : ServerState) :
    (monitorStatsTick s).droppedRequests = 0 := by
  simp only [monitorStatsTick]
  split <;> rfl

/-- Claim C1: when the sampled memory utilization exceeds the threshold, the
`/ws` handler answers `503 Service Unavailable` without attempting the
protocol upgrade, incrementing both the rolling and the cumulative dropped
counters by exactly 1; and every `monitorStats` tick resets the rolling
counter to 0 regardless of the state it finds. -/
theorem admission_rejects_counts_and_tick_resets
    (alloc sys : Nat) (upgradeOk : Bool) (s s2 : ServerState)
    (hutil : memoryUtilizationPercent alloc sys > loadSheddingThreshold)
    (hd1 : -INT32_BOUND ≤ s.droppedRequests)
    (hd2 : s.droppedRequests + 1 < INT32_BOUND)
    (hc1 : -INT64_BOUND ≤ s.cumulativeDroppedRequests)
    (hc2 : s.cumulativeDroppedRequests + 1 < INT64_BOUND) :
    handleConnections alloc sys upgradeOk s =
      (.serviceUnavailable,
        { s with droppedRequests := s.droppedRequests + 1,
                 cumulativeDroppedRequests := s.cumulativeDroppedRequests + 1 }) ∧
    (monitorStatsTick s2).droppedRequests = 0 := by
  constructor
  · have hch : checkMemoryUsage alloc sys = false := by
      simp only [checkMemoryUsage, decide_eq_false_iff_not, not_le]
      omega
    simp only [handleConnections, hch]
    rw [wrap32_eq_of_range _ (by linarith) hd2,
        wrap64_eq_of_range _ (by linarith) hc2]
    simp
  · exact monitorStatsTick_dropped s2

theorem admission_rejects_counts_and_tick_resets_witness :
    handleConnections 60 100 true ⟨3, 4, 5⟩ = (.serviceUnavailable, ⟨3, 5, 6⟩) ∧
    (monitorStatsTick ⟨1, 7, 2⟩).droppedRequests = 0 :=
  admission_rejects_counts_and_tick_resets 60 100 true ⟨3, 4, 5⟩ ⟨1, 7, 2⟩
    (by decide) (by decide) (by decide) (by decide) (by decide)

/-! ## Proxy: instance registry cache, least-loaded selector, redirect
handler (`WSProxy` in the proxy source) -/

/-- `Instance` from the proxy source. `ActiveConnections` is a Go `int`. -/
structure Instance where
  ID : String
  Host : String
  ActiveConnections : Int
  deriving Repr, DecidableEq

/-- The body of the selection loop in `getLeastLoadedInstance`:
`if instance.ActiveConnections < leastLoaded.ActiveConnections
 { leastLoaded = instance }`. -/
def selectStep (leastLoaded inst : Instance) : Instance :=
  if inst.ActiveConnections < leastLoaded.ActiveConnections then inst else leastLoaded

/-- `getLeastLoadedInstance` from the proxy source: error on an empty cache,
otherwise start from `cache[0]` and scan the whole cache once, replacing the
candidate only on a strictly smaller load. -/
def getLeastLoadedInstance (cache : List Instance) : Except String Instance :=
  match cache with
  | [] => .error "no instances available"
  | first :: rest => .ok (List.foldl selectStep first (first :: rest))

/-- The response `proxyHandler` writes for one `/ws` request. -/
inductive ProxyResponse where
  | serviceUnavailable
  | internalServerError
  | temporaryRedirect (location : String)
  deriving Repr, DecidableEq

/-- The target URL `fmt.Sprintf("ws://%s/ws", instance.Host)`. -/
def wsTargetURL (host : String) : String := "ws://" ++ host ++ "/ws"

/-- `proxyHandler` from the proxy source.  On a selector error it answers
`503 Service Unavailable`; otherwise it issues a `307` redirect to the chosen
backend.  `url.Parse` of the fixed-shape target URL is modelled as always
succeeding (it fails only on control characters in the host), so the
source's `500` branch is unreachable here; the constructor is kept to mirror
the source's response surface. -/
def proxyHandler (cache : List Instance) : ProxyResponse :=
  match getLeastLoadedInstance cache with
  | .error _ => .serviceUnavailable
  | .ok inst => .temporaryRedirect (wsTargetURL inst.Host)

/-- A raw registry instance as returned by `ListInstances`: an id and an
attribute map (modelled as an association list; Go map lookup is
`lookupAttr`). -/
structure RawInstance where
  Id : String
  Attributes : List (String × String)
  deriving Repr, DecidableEq

/-- Go map indexing `inst.Attributes[key]` (with the `ok` flag as
`Option`). -/
def lookupAttr (attrs : List (String × String)) (key : String) : Option String :=
  match attrs with
  | [] => none
  | (k, v) :: rest => if k = key then some v else lookupAttr rest key

/-- One step of decimal-digit accumulation. -/
def digitStep (acc : Option Nat) (c : Char) : Option Nat :=
  match acc with
  | none => none
  | some n => if '0' ≤ c ∧ c ≤ '9' then some (n * 10 + (c.toNat - Char.toNat '0')) else none

/-- Parse a non-empty all-digit character list to its value; `none` on an
empty list or any non-digit character. -/
def parseDigits (cs : List Char) : Option Nat :=
  if cs = [] then none else cs.foldl digitStep (some 0)

/-- `goAtoi` on the character list of the input. -/
def goAtoiChars : List Char → Int
  | [] => 0
  | c :: rest =>
    if c = '+' then
      match parseDigits rest with
      | some n => min (n : Int) (INT64_BOUND - 1)
      | none => 0
    else if c = '-' then
      match parseDigits rest with
      | some n => max (-(n : Int)) (-INT64_BOUND)
      | none => 0
    else
      match parseDigits (c :: rest) with
      | some n => min (n : Int) (INT64_BOUND - 1)
      | none => 0

/-- `strconv.Atoi` with its error discarded, as in
`connections, _ = strconv.Atoi(*val)`: a syntax error yields 0, a range
error yields the clamped `int64` of the appropriate sign, otherwise the
parsed value. -/
def goAtoi (s : String) : Int := goAtoiChars s.data

/-- `atoiSyntaxOk` on the character list of the input. -/
def atoiSyntaxOkChars : List Char → Bool
  | [] => false
  | c :: rest =>
    if c = '+' ∨ c = '-' then (parseDigits rest).isSome
    else (parseDigits (c :: rest)).isSome

/-- Whether `strconv.Atoi` would parse `s` without a syntax error. -/
def atoiSyntaxOk (s : String) : Bool := atoiSyntaxOkChars s.data

/-- The `connections` local of the mapping loop in
`updateServiceDiscoveryCache`: 0 when `ACTIVE_CONNECTIONS` is absent,
otherwise `strconv.Atoi` with its error discarded. -/
def mapInstanceConnections (inst : RawInstance) : Int :=
  match lookupAttr inst.Attributes "ACTIVE_CONNECTIONS" with
  | some v => goAtoi v
  | none => 0

/-- The body of the mapping loop in `updateServiceDiscoveryCache`: the load
metric defaults to 0 when `ACTIVE_CONNECTIONS` is absent or unparsable, but
`*inst.Attributes["AWS_INSTANCE_IPV4"]` is dereferenced unguarded — a
missing address attribute is a nil-pointer dereference, i.e. a panic,
modelled as `none`. -/
def mapInstance (inst : RawInstance) : Option Instance :=
  match lookupAttr inst.Attributes "AWS_INSTANCE_IPV4" with
  | some host => some ⟨inst.Id, host, mapInstanceConnections inst⟩
  | none => none

/-- The whole mapping loop: `none` as soon as any entry panics. -/
def mapInstances : List RawInstance → Option (List Instance)
  | [] => some []
  | inst :: rest =>
    match mapInstance inst, mapInstances rest with
    | some i, some is => some (i :: is)
    | _, _ => none

/-- How one refresh of the cache ends. -/
inductive RefreshOutcome where
  /-- `ListInstances` failed; the error is returned and logged by the
  refresh loop in `Start`. -/
  | queryFailed (msg : String)
  /-- Nil-pointer dereference of a missing `AWS_INSTANCE_IPV4` attribute. -/
  | panicked
  /-- The snapshot was atomically replaced. -/
  | replaced
  deriving Repr, DecidableEq

/-- `updateServiceDiscoveryCache` from the proxy source, as a function of
the registry query result and the current cached snapshot; returns the new
snapshot and the outcome. -/
def updateServiceDiscoveryCache (queryResult : Except String (List RawInstance))
    (cache : List Instance) : List Instance × RefreshOutcome :=
  match queryResult with
  | .error e => (cache, .queryFailed ("failed to list instances: " ++ e))
  | .ok insts =>
    match mapInstances insts with
    | none => (cache, .panicked)
    | some newCache => (newCache, .replaced)

/-- Characterisation of the selection fold: it either keeps the initial
candidate (which is then a minimum of the scanned list) or returns the first
element of the list that strictly improves on everything before it and is a
minimum of everything after it. -/
theorem foldl_selectStep_spec (l : List Instance) : ∀ a : Instance,
    (List.foldl selectStep a l = a ∧
      ∀ i ∈ l, a.ActiveConnections ≤ i.ActiveConnections) ∨
    (∃ l1 r l2, l = l1 ++ r :: l2 ∧ List.foldl selectStep a l = r ∧
      r.ActiveConnections < a.ActiveConnections ∧
      (∀ i ∈ l1, r.ActiveConnections < i.ActiveConnections) ∧
      (∀ i ∈ l2, r.ActiveConnections ≤ i.ActiveConnections)) := by
  induction l with
  | nil =>
    intro a
    left
    exact ⟨rfl, by simp⟩
  | cons b l' ih =>
    intro a
    simp only [List.foldl_cons]
    by_cases hb : b.ActiveConnections < a.ActiveConnections
    · have hstep : selectStep a b = b := by simp [selectStep, hb]
      rw [hstep]
      rcases ih b with ⟨heq, hall⟩ | ⟨l1, r, l2, hdecomp, heq, hlt, hpre, hpost⟩
      · right
        exact ⟨[], b, l', by simp, heq, hb, by simp, hall⟩
      · right
        refine ⟨b :: l1, r, l2, by rw [hdecomp]; simp, heq, lt_trans hlt hb, ?_, hpost⟩
        intro i hi
        rcases List.mem_cons.mp hi with h | h
        · rw [h]; exact hlt
        · exact hpre i h
    · have hstep : selectStep a b = a := by simp [selectStep, hb]
      rw [hstep]
      rcases ih a with ⟨heq, hall⟩ | ⟨l1, r, l2, hdecomp, heq, hlt, hpre, hpost⟩
      · left
        refine ⟨heq, ?_⟩
        intro i hi
        rcases List.mem_cons.mp hi with h | h
        · rw [h]; exact le_of_not_lt hb
        · exact hall i h
      · right
        refine ⟨b :: l1, r, l2, by rw [hdecomp]; simp, heq, hlt, ?_, hpost⟩
        intro i hi
        rcases List.mem_cons.mp hi with h | h
        · rw [h]; exact lt_of_lt_of_le hlt (le_of_not_lt hb)
        · exact hpre i h

/-- Claim C2: on every non-empty snapshot the selector returns an instance
of minimal load, and every instance strictly before it in snapshot order has
strictly greater load (first occurrence wins ties); in particular on
`[{A,5},{B,2},{C,2}]` it returns `B`. -/
theorem getLeastLoadedInstance_first_min :
    (∀ cache : List Instance, cache ≠ [] →
      ∃ l1 r l2, getLeastLoadedInstance cache = .ok r ∧ cache = l1 ++ r :: l2 ∧
        (∀ i ∈ cache, r.ActiveConnections ≤ i.ActiveConnections) ∧
        (∀ i ∈ l1, r.ActiveConnections < i.ActiveConnections)) ∧
    getLeastLoadedInstance [⟨"A", "hostA", 5⟩, ⟨"B", "hostB", 2⟩, ⟨"C", "hostC", 2⟩] =
      .ok ⟨"B", "hostB", 2⟩ := by
  constructor
  · intro cache hne
    match cache with
    | first :: rest =>
      rcases foldl_selectStep_spec (first :: rest) first with
        ⟨heq, hall⟩ | ⟨l1, r, l2, hdecomp, heq, hlt, hpre, hpost⟩
      · exact ⟨[], first, rest, by simp [getLeastLoadedInstance, heq], rfl, hall, by simp⟩
      · refine ⟨l1, r, l2, by simp [getLeastLoadedInstance, heq], hdecomp, ?_, hpre⟩
        intro i hi
        rw [hdecomp] at hi
        rcases List.mem_append.mp hi with h | h
        · exact le_of_lt (hpre i h)
        · rcases List.mem_cons.mp h with h | h
          · rw [h]
          · exact hpost i h
  · rfl

theorem getLeastLoadedInstance_first_min_witness :
    ∃ l1 r l2,
      getLeastLoadedInstance [⟨"X", "x", 4⟩, ⟨"Y", "y", 1⟩] = .ok r ∧
      ([⟨"X", "x", 4⟩, ⟨"Y", "y", 1⟩] : List Instance) = l1 ++ r :: l2 ∧
      (∀ i ∈ ([⟨"X", "x", 4⟩, ⟨"Y", "y", 1⟩] : List Instance),
        r.ActiveConnections ≤ i.ActiveConnections) ∧
      (∀ i ∈ l1, r.ActiveConnections < i.ActiveConnections) :=
  getLeastLoadedInstance_first_min.1 [⟨"X", "x", 4⟩, ⟨"Y", "y", 1⟩] (by decide)

/-- Claim C3: on an empty snapshot the selector fails with the
no-instances error (it is a total function — no blocking, no panic), and
`proxyHandler` surfaces that failure as `503 Service Unavailable`. -/
theorem emptyCache_selector_fails_and_503 :
    getLeastLoadedInstance ([] : List Instance) = .error "no instances available" ∧
    proxyHandler [] = .serviceUnavailable :=
  ⟨rfl, rfl⟩

theorem goAtoiChars_eq_zero_of_not_syntaxOk (cs : List Char)
    (h : atoiSyntaxOkChars cs = false) : goAtoiChars cs = 0 := by
  cases cs with
  | nil => rfl
  | cons c rest =>
    simp only [atoiSyntaxOkChars] at h
    simp only [goAtoiChars]
    by_cases hpm : c = '+' ∨ c = '-'
    · rw [if_pos hpm] at h
      have hp : parseDigits rest = none := by
        cases hp : parseDigits rest with
        | none => rfl
        | some n => rw [hp] at h; simp at h
      rcases hpm with h1 | h1
      · rw [if_pos h1, hp]
      · have hne : ¬ c = '+' := by rw [h1]; decide
        rw [if_neg hne, if_pos h1, hp]
    · rw [if_neg hpm] at h
      have hp : parseDigits (c :: rest) = none := by
        cases hp : parseDigits (c :: rest) with
        | none => rfl
        | some n => rw [hp] at h; simp at h
      have hc1 : ¬ c = '+' := fun hc => hpm (Or.inl hc)
      have hc2 : ¬ c = '-' := fun hc => hpm (Or.inr hc)
      rw [if_neg hc1, if_neg hc2, hp]

theorem goAtoi_eq_zero_of_not_syntaxOk (s : String) (h : atoiSyntaxOk s = false) :
    goAtoi s = 0 :=
  goAtoiChars_eq_zero_of_not_syntaxOk s.data h

theorem mapInstance_eq_none (i : RawInstance)
    (h : lookupAttr i.Attributes "AWS_INSTANCE_IPV4" = none) : mapInstance i = none := by
  unfold mapInstance
  rw [h]

theorem mapInstances_eq_none_of_mem (insts : List RawInstance) (i : RawInstance)
    (hmem : i ∈ insts) (hnone : mapInstance i = none) : mapInstances insts = none := by
  induction insts with
  | nil => cases hmem
  | cons b rest ih =>
    rcases List.mem_cons.mp hmem with h | h
    · unfold mapInstances
      rw [← h, hnone]
    · unfold mapInstances
      rw [ih h]
      cases mapInstance b <;> rfl

theorem updateServiceDiscoveryCache_ok (insts : List RawInstance) (cache : List Instance) :
    updateServiceDiscoveryCache (.ok insts) cache =
      match mapInstances insts with
      | none => (cache, .panicked)
      | some newCache => (newCache, .replaced) := rfl

/-- Claim C4 counterexample: a successful registry query whose result
contains an instance without the `AWS_INSTANCE_IPV4` attribute does not
replace the cached snapshot — the refresh panics on the unguarded
dereference and the old snapshot stays. -/
theorem updateCache_success_not_always_replaced :
    (updateServiceDiscoveryCache (.ok [⟨"i-bad", [("ACTIVE_CONNECTIONS", "2")]⟩])
        [⟨"old", "10.0.0.9", 1⟩]).1 = [⟨"old", "10.0.0.9", 1⟩] ∧
    (updateServiceDiscoveryCache (.ok [⟨"i-bad", [("ACTIVE_CONNECTIONS", "2")]⟩])
        [⟨"old", "10.0.0.9", 1⟩]).2 ≠ .replaced := by
  exact ⟨rfl, by decide⟩

/-- Claim C4 (amended): a failed registry query leaves the cached snapshot
unchanged (the error is returned to the refresh loop, which logs it); a
successful query whose instances all map (every one carries
`AWS_INSTANCE_IPV4`) replaces the snapshot with the mapped result, in
particular an empty success result replaces a non-empty snapshot; but a
successful query containing an instance whose mapping panics leaves the
snapshot unchanged. -/
theorem updateServiceDiscoveryCache_refresh_behaviour :
    (∀ e cache, updateServiceDiscoveryCache (.error e) cache =
        (cache, .queryFailed ("failed to list instances: " ++ e))) ∧
    (∀ insts cache newCache, mapInstances insts = some newCache →
        updateServiceDiscoveryCache (.ok insts) cache = (newCache, .replaced)) ∧
    (∀ cache, updateServiceDiscoveryCache (.ok []) cache = ([], .replaced)) ∧
    (∀ insts cache, mapInstances insts = none →
        updateServiceDiscoveryCache (.ok insts) cache = (cache, .panicked)) := by
  refine ⟨fun e cache => rfl, ?_, fun cache => rfl, ?_⟩
  · intro insts cache newCache h
    rw [updateServiceDiscoveryCache_ok, h]
  · intro insts cache h
    rw [updateServiceDiscoveryCache_ok, h]

theorem updateServiceDiscoveryCache_refresh_behaviour_witness :
    updateServiceDiscoveryCache (.ok [⟨"i-1", [("AWS_INSTANCE_IPV4", "10.0.0.1")]⟩]) [] =
      ([⟨"i-1", "10.0.0.1", 0⟩], .replaced) ∧
    updateServiceDiscoveryCache (.ok [⟨"i-2", []⟩]) [⟨"old", "h", 3⟩] =
      ([⟨"old", "h", 3⟩], .panicked) :=
  ⟨updateServiceDiscoveryCache_refresh_behaviour.2.1 _ _ _ (by decide),
   updateServiceDiscoveryCache_refresh_behaviour.2.2.2 _ _ (by decide)⟩

/-- Claim C10: a refresh with a successful query replaces the snapshot only
if every returned instance carries `AWS_INSTANCE_IPV4` — one instance
without it makes the whole refresh panic, leaving the snapshot unchanged —
whereas a missing or syntactically unparsable `ACTIVE_CONNECTIONS`
attribute merely yields a load metric of 0 for that instance without
failing the refresh. -/
theorem refresh_requires_ipv4_attribute :
    (∀ insts cache,
        (∃ i ∈ insts, lookupAttr i.Attributes "AWS_INSTANCE_IPV4" = none) →
        updateServiceDiscoveryCache (.ok insts) cache = (cache, .panicked)) ∧
    (∀ i : RawInstance, ∀ host,
        lookupAttr i.Attributes "AWS_INSTANCE_IPV4" = some host →
        lookupAttr i.Attributes "ACTIVE_CONNECTIONS" = none →
        mapInstance i = some ⟨i.Id, host, 0⟩) ∧
    (∀ i : RawInstance, ∀ host v,
        lookupAttr i.Attributes "AWS_INSTANCE_IPV4" = some host →
        lookupAttr i.Attributes "ACTIVE_CONNECTIONS" = some v →
        atoiSyntaxOk v = false →
        mapInstance i = some ⟨i.Id, host, 0⟩) := by
  refine ⟨?_, ?_, ?_⟩
  · rintro insts cache ⟨i, hmem, hnone⟩
    have hmapped : mapInstances insts = none :=
      mapInstances_eq_none_of_mem insts i hmem (mapInstance_eq_none i hnone)
    rw [updateServiceDiscoveryCache_ok, hmapped]
  · intro i host h1 h2
    have hc : mapInstanceConnections i = 0 := by
      unfold mapInstanceConnections
      rw [h2]
    unfold mapInstance
    rw [h1, hc]
  · intro i host v h1 h2 h3
    have hc : mapInstanceConnections i = 0 := by
      unfold mapInstanceConnections
      rw [h2]
      exact goAtoi_eq_zero_of_not_syntaxOk v h3
    unfold mapInstance
    rw [h1, hc]

theorem refresh_requires_ipv4_attribute_witness :
    updateServiceDiscoveryCache (.ok [⟨"b", [("X", "1")]⟩]) [⟨"o", "h", 2⟩] =
      ([⟨"o", "h", 2⟩], .panicked) ∧
    mapInstance ⟨"i-3", [("AWS_INSTANCE_IPV4", "10.1.1.1")]⟩ =
      some ⟨"i-3", "10.1.1.1", 0⟩ ∧
    mapInstance ⟨"i-4", [("AWS_INSTANCE_IPV4", "10.1.1.2"), ("ACTIVE_CONNECTIONS", "junk")]⟩ =
      some ⟨"i-4", "10.1.1.2", 0⟩ :=
  ⟨refresh_requires_ipv4_attribute.1 [⟨"b", [("X", "1")]⟩] [⟨"o", "h", 2⟩] (by decide),
   refresh_requires_ipv4_attribute.2.1 ⟨"i-3", [("AWS_INSTANCE_IPV4", "10.1.1.1")]⟩
     "10.1.1.1" (by decide) (by decide),
   refresh_requires_ipv4_attribute.2.2
     ⟨"i-4", [("AWS_INSTANCE_IPV4", "10.1.1.2"), ("ACTIVE_CONNECTIONS", "junk")]⟩
     "10.1.1.2" "junk" (by decide) (by decide) (by decide)⟩

/-! ## Reconnecting client (`WSClient` in the client source) -/

/-- The part of an HTTP response `handleRedirect` inspects: the status code
and `resp.Header.Get("Location")` (the empty string when the header is
absent, as in Go). -/
structure HTTPResponse where
  statusCode : Nat
  location : String
  deriving Repr, DecidableEq

/-- The `(conn, resp, err)` triple returned by
`websocket.DefaultDialer.Dial`: `connOk` is whether a usable connection came
back, `resp` the handshake response when one was received, `err` the error
message when the dial failed. -/
structure DialOutcome where
  connOk : Bool
  resp : Option HTTPResponse
  err : Option String
  deriving Repr, DecidableEq

/-- `handleRedirect` from the client source: dial the current URL; if that
fails with a response carrying status 307, 301 or 302 and a non-empty
`Location` header, dial the location once and return that dial's result
unconditionally; otherwise return the first dial's result.  `dial` abstracts
the network: the outcome of dialing each URL. -/
def handleRedirect (dial : String → DialOutcome) (url : String) : DialOutcome :=
  let o := dial url
  match o.err, o.resp with
  | some _, some resp =>
    if (resp.statusCode = 307 ∨ resp.statusCode = 301 ∨ resp.statusCode = 302) ∧
        resp.location ≠ "" then
      dial resp.location
    else o
  | _, _ => o

/-- `connect` from the client source fails exactly when `handleRedirect`
returned a non-nil error. -/
def connectErr (dial : String → DialOutcome) (url : String) : Bool :=
  ((handleRedirect dial url).err).isSome

/-- The retry-relevant fields of `WSClient`: the current dial target, the
original configured target, the consecutive-failure counter and its bound. -/
structure WSClient where
  url : String
  originalURL : String
  retryCount : Nat
  maxRetries : Nat
  deriving Repr, DecidableEq

/-- `NewWSClient` from the client source (`retryCount` starts at 0 and
`maxRetries` is 3). -/
def NewWSClient (url : String) : WSClient := ⟨url, url, 0, 3⟩

/-- The connect phase of one iteration of `Run`, given whether `connect`
succeeded: on failure increment `retryCount` and, once it reaches
`maxRetries`, fall back to `originalURL` and reset the counter; on success
reset the counter to 0 and enter the connected phase (the returned flag:
the ticker is started and `readPump` spawned). -/
def connectAttempt (c : WSClient) (success : Bool) : WSClient × Bool :=
  if success then ({ c with retryCount := 0 }, true)
  else if c.retryCount + 1 ≥ c.maxRetries then
    ({ c with url := c.originalURL, retryCount := 0 }, false)
  else
    ({ c with retryCount := c.retryCount + 1 }, false)

/-- One iteration of `Run`'s connect phase against the network `dial`. -/
def runConnectPhase (dial : String → DialOutcome) (c : WSClient) : WSClient × Bool :=
  connectAttempt c (!(connectErr dial c.url))

/-- The client state after `n` consecutive failed connection attempts. -/
def failSteps (c : WSClient) : Nat → WSClient
  | 0 => c
  | n + 1 => (connectAttempt (failSteps c n) false).1

/-- The double-close guard of `WSClient`: the `isClosed` flag (protected by
`mu` in the source — the mutex serialises the calls, so the sequential model
is faithful) and how many times `close(done)` has actually been performed. -/
structure CloseState where
  isClosed : Bool
  doneCloseCount : Nat
  deriving Repr, DecidableEq

/-- `closeOnce` from the client source: close the done channel only when the
flag is not yet set. -/
def closeOnce (s : CloseState) : CloseState :=
  if s.isClosed then s
  else { isClosed := true, doneCloseCount := s.doneCloseCount + 1 }

/-- `n` sequential invocations of `closeOnce` (the order the mutex imposes
on the N logical paths). -/
def closeOnceIter : Nat → CloseState → CloseState
  | 0, s => s
  | n + 1, s => closeOnceIter n (closeOnce s)

/-- Claim C9: `closeOnce` is idempotent — a second or later invocation
leaves the state unchanged — and however many times it is invoked on a fresh
attempt's state, the done-channel close is performed exactly once. -/
theorem closeOnce_release_exactly_once :
    (∀ s, closeOnce (closeOnce s) = closeOnce s) ∧
    (∀ n, closeOnceIter (n + 1) ⟨false, 0⟩ = ⟨true, 1⟩) := by
  have hclosed : ∀ s : CloseState, s.isClosed = true → closeOnce s = s := by
    intro s h
    unfold closeOnce
    rw [if_pos h]
  constructor
  · intro s
    by_cases h : s.isClosed = true
    · rw [hclosed s h, hclosed s h]
    · have h1 : closeOnce s = ⟨true, s.doneCloseCount + 1⟩ := by
        unfold closeOnce
        rw [if_neg h]
      rw [h1, hclosed _ rfl]
  · have hstay : ∀ n k, closeOnceIter n ⟨true, k⟩ = ⟨true, k⟩ := by
      intro n
      induction n with
      | zero => intro k; rfl
      | succ m ih =>
        intro k
        show closeOnceIter m (closeOnce ⟨true, k⟩) = _
        rw [hclosed ⟨true, k⟩ rfl]
        exact ih k
    intro n
    show closeOnceIter n (closeOnce ⟨false, 0⟩) = _
    have hfresh : closeOnce ⟨false, 0⟩ = (⟨true, 1⟩ : CloseState) := rfl
    rw [hfresh]
    exact hstay n 1

theorem connectAttempt_fail_incr (c : WSClient) (h : c.retryCount + 1 < c.maxRetries) :
    (connectAttempt c false).1 = { c with retryCount := c.retryCount + 1 } := by
  unfold connectAttempt
  rw [if_neg (by simp), if_neg (by omega)]

theorem connectAttempt_fail_reset (c : WSClient) (h : c.retryCount + 1 ≥ c.maxRetries) :
    (connectAttempt c false).1 = { c with url := c.originalURL, retryCount := 0 } := by
  unfold connectAttempt
  rw [if_neg (by simp), if_pos h]

theorem failSteps_eq_of_lt (c : WSClient) (h0 : c.retryCount = 0) :
    ∀ k, k < c.maxRetries → failSteps c k = { c with retryCount := k } := by
  intro k
  induction k with
  | zero =>
    intro _
    have hc : ({ c with retryCount := 0 } : WSClient) = c := by
      obtain ⟨u, o, rc, m⟩ := c
      simp only at h0
      rw [h0]
    rw [hc]
    rfl
  | succ k ih =>
    intro hk
    have hk' : k < c.maxRetries := Nat.lt_of_succ_lt hk
    show (connectAttempt (failSteps c k) false).1 = _
    rw [ih hk']
    rw [connectAttempt_fail_incr { c with retryCount := k } hk]

/-- Claim C7: starting from a fresh retry counter, after exactly
`maxRetries` consecutive dial failures the client's target is back to the
original configured URL with the retry counter at 0; and after any number of
dial failures, one successful connect enters the connected phase with the
retry counter reset to 0. -/
theorem retry_exhaustion_and_success_reset (c : WSClient)
    (h0 : c.retryCount = 0) (hm : 0 < c.maxRetries) :
    failSteps c c.maxRetries = { c with url := c.originalURL, retryCount := 0 } ∧
    ∀ n, connectAttempt (failSteps c n) true =
      ({ failSteps c n with retryCount := 0 }, true) := by
  constructor
  · obtain ⟨m, hm'⟩ : ∃ m, c.maxRetries = m + 1 := ⟨c.maxRetries - 1, by omega⟩
    rw [hm']
    show (connectAttempt (failSteps c m) false).1 = _
    rw [failSteps_eq_of_lt c h0 m (by omega)]
    rw [connectAttempt_fail_reset { c with retryCount := m } (by simp; omega)]
    simp [hm']
  · exact fun n => rfl

theorem retry_exhaustion_and_success_reset_witness :
    failSteps ⟨"ws://b/ws", "ws://a/ws", 0, 3⟩ 3 = ⟨"ws://a/ws", "ws://a/ws", 0, 3⟩ ∧
    connectAttempt (failSteps ⟨"ws://b/ws", "ws://a/ws", 0, 3⟩ 2) true =
      (⟨"ws://b/ws", "ws://a/ws", 0, 3⟩, true) := by
  have h := retry_exhaustion_and_success_reset ⟨"ws://b/ws", "ws://a/ws", 0, 3⟩ rfl
    (by decide)
  exact ⟨h.1, h.2 2⟩

/-- A network where the configured proxy URL answers with a 307 redirect to
a healthy backend and every other URL connects. -/
def dialRedirectOnce : String → DialOutcome := fun u =>
  if u = "ws://proxy/ws" then ⟨false, some ⟨307, "ws://backend/ws"⟩, some "bad handshake"⟩
  else ⟨true, none, none⟩

/-- A network with a two-hop redirect chain `a → b → c`, where `c` (and any
other URL) connects. -/
def dialChain2 : String → DialOutcome := fun u =>
  if u = "ws://a/ws" then ⟨false, some ⟨307, "ws://b/ws"⟩, some "bad handshake"⟩
  else if u = "ws://b/ws" then ⟨false, some ⟨307, "ws://c/ws"⟩, some "bad handshake"⟩
  else ⟨true, none, none⟩

/-- Claim C5 counterexample: a redirect chain of length 2 — well under the
claimed hop bound of 3 — is not followed to its end: the attempt ends with
the second hop's dial error and the connect phase fails, so redirect chains
are not "followed iteratively up to an upper hop bound of 3". -/
theorem redirect_chain_of_two_not_followed :
    (handleRedirect dialChain2 "ws://a/ws").err = some "bad handshake" ∧
    (handleRedirect dialChain2 "ws://a/ws").connOk = false ∧
    handleRedirect dialChain2 "ws://a/ws" ≠ dialChain2 "ws://c/ws" ∧
    (runConnectPhase dialChain2 (NewWSClient "ws://a/ws")).2 = false := by
  decide

/-- Claim C5 (amended): `handleRedirect` follows at most one redirect hop:
its result is either the first dial's outcome or, when that outcome is a
failure carrying a 307/301/302 response with a non-empty location, the
outcome of dialing that location once; and whenever the final outcome still
carries an error — in particular when the re-dialed location answers with a
further redirect — the connection attempt simply fails (there is no
`RedirectLoopError` and no unbounded following, since at most two dials
happen per attempt). -/
theorem handleRedirect_at_most_one_hop :
    (∀ (dial : String → DialOutcome) (url : String),
      handleRedirect dial url = dial url ∨
      ∃ r, (dial url).resp = some r ∧ (dial url).err ≠ none ∧
        (r.statusCode = 307 ∨ r.statusCode = 301 ∨ r.statusCode = 302) ∧
        r.location ≠ "" ∧ handleRedirect dial url = dial r.location) ∧
    (∀ (dial : String → DialOutcome) (c : WSClient),
      (handleRedirect dial c.url).err ≠ none → (runConnectPhase dial c).2 = false) := by
  constructor
  · intro dial url
    cases herr : (dial url).err with
    | none =>
      left
      simp only [handleRedirect]
      rw [herr]
    | some e =>
      cases hresp : (dial url).resp with
      | none =>
        left
        simp only [handleRedirect]
        rw [herr, hresp]
      | some r =>
        by_cases hcond : (r.statusCode = 307 ∨ r.statusCode = 301 ∨ r.statusCode = 302) ∧
            r.location ≠ ""
        · right
          refine ⟨r, rfl, fun hh => Option.noConfusion hh, hcond.1, hcond.2, ?_⟩
          · simp only [handleRedirect]
            rw [herr, hresp]
            show (if (r.statusCode = 307 ∨ r.statusCode = 301 ∨ r.statusCode = 302) ∧
                r.location ≠ "" then dial r.location else dial url) = dial r.location
            rw [if_pos hcond]
        · left
          simp only [handleRedirect]
          rw [herr, hresp]
          show (if (r.statusCode = 307 ∨ r.statusCode = 301 ∨ r.statusCode = 302) ∧
              r.location ≠ "" then dial r.location else dial url) = dial url
          rw [if_neg hcond]
  · intro dial c h
    unfold runConnectPhase connectErr
    rw [Option.ne_none_iff_isSome.mp h]
    show (connectAttempt c false).2 = false
    unfold connectAttempt
    rw [if_neg (by simp)]
    by_cases h2 : c.retryCount + 1 ≥ c.maxRetries
    · rw [if_pos h2]
    · rw [if_neg h2]

/-- Claim C6 counterexample: after a successful redirected connect (307 from
the proxy, successful dial of the backend) the client's stored target is
still the original proxy URL, not the redirect destination — the redirect
destination does not become the new working target for subsequent reconnect
attempts. -/
theorem redirect_destination_not_adopted :
    (runConnectPhase dialRedirectOnce (NewWSClient "ws://proxy/ws")).2 = true ∧
    (runConnectPhase dialRedirectOnce (NewWSClient "ws://proxy/ws")).1.url =
      "ws://proxy/ws" ∧
    (runConnectPhase dialRedirectOnce (NewWSClient "ws://proxy/ws")).1.url ≠
      "ws://backend/ws" := by
  decide

/-- Claim C6 (amended): a dial answered by a 307/301/302 response with a
`Location` header is re-dialed once, and when the re-dial succeeds the
connect phase succeeds with the retry counter at 0 (the redirect is not
counted as a failed attempt) — but the client's target URL is left
unchanged, so subsequent reconnect attempts dial the original target, not
the redirect destination. -/
theorem redirect_followed_without_retry_count (dial : String → DialOutcome)
    (c : WSClient) (r : HTTPResponse)
    (h1 : (dial c.url).err ≠ none)
    (h2 : (dial c.url).resp = some r)
    (h3 : r.statusCode = 307 ∨ r.statusCode = 301 ∨ r.statusCode = 302)
    (h4 : r.location ≠ "")
    (h5 : (dial r.location).err = none) :
    handleRedirect dial c.url = dial r.location ∧
    runConnectPhase dial c = ({ c with retryCount := 0 }, true) := by
  obtain ⟨e, he⟩ := Option.ne_none_iff_exists'.mp h1
  have hred : handleRedirect dial c.url = dial r.location := by
    simp only [handleRedirect]
    rw [he, h2]
    show (if (r.statusCode = 307 ∨ r.statusCode = 301 ∨ r.statusCode = 302) ∧
        r.location ≠ "" then dial r.location else dial c.url) = dial r.location
    rw [if_pos ⟨h3, h4⟩]
  refine ⟨hred, ?_⟩
  unfold runConnectPhase connectErr
  rw [hred, h5]
  rfl

theorem redirect_followed_without_retry_count_witness :
    handleRedirect dialRedirectOnce "ws://proxy/ws" = dialRedirectOnce "ws://backend/ws" ∧
    runConnectPhase dialRedirectOnce (NewWSClient "ws://proxy/ws") =
      (NewWSClient "ws://proxy/ws", true) := by
  have h := redirect_followed_without_retry_count dialRedirectOnce
    (NewWSClient "ws://proxy/ws") ⟨307, "ws://backend/ws"⟩ (by decide) (by decide)
    (by decide) (by decide) (by decide)
  exact ⟨h.1, h.2⟩

/-- Claim C8, failing input: a `/ws` request that passes the admission check
(memory utilization 10% ≤ 50%) but whose protocol upgrade fails — e.g. a
plain HTTP GET without websocket handshake headers.  The handler calls
`log.Fatal(err)`, a process-fatal outcome, instead of containing the
failure to that one connection: the code contradicts the claim and the
spec's own error-handling design. -/
theorem upgrade_failure_terminates_process :
    memoryUtilizationPercent 10 100 ≤ loadSheddingThreshold ∧
    (handleConnections 10 100 false ⟨0, 0, 0⟩).1 = .upgradeFailedFatal ∧
    WsHandlerOutcome.processFatal (handleConnections 10 100 false ⟨0, 0, 0⟩).1 = true := by
  decide

end BasicApp
